import Mathlib

/-!
  # az_event_registration — verification of the registration contract

  A shallow embedding of `src/lib.rs` (ink! contract `az_event_registration`)
  and `src/errors.rs`. The ambient environment of a message call (the caller
  identity from `Self::env().caller()` and the block timestamp from
  `Self::env().block_timestamp()`) is passed explicitly; `self` becomes an
  explicit state value, and each mutating message returns the `Result`
  together with the post-call state (on an early `return Err` the state is
  the unchanged input, exactly as in the source, where every error return
  happens before any mutation). `Mapping<AccountId, Registration>` is
  embedded as a function `AccountId → Option Registration`; `insert` is the
  unconditional upsert and `remove` deletes the key, matching ink's
  `Mapping`. Event emission has no effect on contract state and is not
  modelled. `AccountId` and `Timestamp` (`u64`) are opaque comparable
  values; only equality and order comparisons are performed on them in the
  source, so `Nat` embeds them faithfully.
-/

/-- Account identity (ink `AccountId`): an opaque value compared only for
equality in the source. -/
abbrev AccountId : Type := Nat

/-- Block timestamp (ink `Timestamp`, a `u64`): compared only with `>` in
the source, never arithmetically combined, so `Nat` is a faithful model. -/
abbrev Timestamp : Type := Nat

/-- Error type of `src/errors.rs` (`AzEventRegistrationError`). `LangError`
and `InkEnvError` payloads are opaque to this contract's logic and are
embedded as strings. -/
inductive AzEventRegistrationError where
  | ContractCall (err : String)
  | InkEnvError (err : String)
  | NotFound (what : String)
  | Unauthorised
  | UnprocessableEntity (reason : String)
  deriving DecidableEq

/-- The `Config` struct returned by the `config` query. -/
structure Config where
  admin : AccountId
  deadline : Timestamp
  deriving DecidableEq

/-- A stored `Registration` record: the registrant's address (also the map
key) and an optional referrer. -/
structure Registration where
  address : AccountId
  referrer : Option AccountId
  deriving DecidableEq

/-- The contract storage struct `AzEventRegistration`: admin, deadline and
the registrations mapping. -/
structure AzEventRegistration where
  admin : AccountId
  deadline : Timestamp
  registrations : AccountId → Option Registration

namespace AzEventRegistration

/-- Constructor `new(deadline)`: admin is the instantiating caller, the
mapping starts empty (`Mapping::default()`). -/
def new (caller : AccountId) (deadline : Timestamp) : AzEventRegistration :=
  { admin := caller, deadline := deadline, registrations := fun _ => none }

/-- Query `config()`: returns the current admin and deadline. -/
def config (s : AzEventRegistration) : Config :=
  { admin := s.admin, deadline := s.deadline }

/-- Query `show(address)` (renamed: `show` is a Lean keyword): exact-key
lookup, `NotFound("Registration")` on a miss. -/
def showRegistration (s : AzEventRegistration) (address : AccountId) :
    Except AzEventRegistrationError Registration :=
  match s.registrations address with
  | some r => .ok r
  | none => .error (.NotFound "Registration")

/-- Message `destroy()`: `self.show(caller)?` then remove the caller's key.
The `?` propagates `NotFound` with the state untouched. -/
def destroy (s : AzEventRegistration) (caller : AccountId) :
    Except AzEventRegistrationError Unit × AzEventRegistration :=
  match s.showRegistration caller with
  | .error e => (.error e, s)
  | .ok _ =>
      (.ok (),
       { s with registrations := fun a => if a = caller then none else s.registrations a })

/-- Message `register(referrer)`: deadline gate, then the self-referral
check (`if let Some(referrer_unwrapped) = referrer`, embedded as
`referrer = some caller`), then the duplicate check, then insert and return
the new record. -/
def register (s : AzEventRegistration) (caller : AccountId)
    (block_timestamp : Timestamp) (referrer : Option AccountId) :
    Except AzEventRegistrationError Registration × AzEventRegistration :=
  if block_timestamp > s.deadline then
    (.error (.UnprocessableEntity "Registration is now closed"), s)
  else if referrer = some caller then
    (.error (.UnprocessableEntity "Registrant and referrer must be different"), s)
  else if (s.registrations caller).isSome then
    (.error (.UnprocessableEntity "Registration already exists"), s)
  else
    (.ok { address := caller, referrer := referrer },
     { s with
        registrations := fun a =>
          if a = caller then some { address := caller, referrer := referrer }
          else s.registrations a })

/-- Message `update(referrer)`: `self.show(caller)?`, overwrite the record's
`referrer` field, insert it back, return it. There is no self-referral
check here in the source. -/
def update (s : AzEventRegistration) (caller : AccountId)
    (referrer : Option AccountId) :
    Except AzEventRegistrationError Registration × AzEventRegistration :=
  match s.showRegistration caller with
  | .error e => (.error e, s)
  | .ok registration =>
      (.ok { registration with referrer := referrer },
       { s with
          registrations := fun a =>
            if a = caller then some { registration with referrer := referrer }
            else s.registrations a })

/-- Helper `authorise(allowed, received)`: `Unauthorised` when they differ. -/
def authorise (allowed received : AccountId) : Except AzEventRegistrationError Unit :=
  if allowed ≠ received then .error .Unauthorised else .ok ()

/-- Message `update_config(deadline)`: `authorise(caller, admin)?` then set
the deadline; no validation of the numeric value. -/
def update_config (s : AzEventRegistration) (caller : AccountId)
    (deadline : Timestamp) :
    Except AzEventRegistrationError Unit × AzEventRegistration :=
  match authorise caller s.admin with
  | .error e => (.error e, s)
  | .ok _ => (.ok (), { s with deadline := deadline })

/-- One invocation of a mutating message, with its ambient context (caller,
and for `register` the block timestamp; `update`, `destroy` and
`update_config` never read the timestamp in the source). The queries
`config` and `show` take `&self` and cannot mutate. -/
inductive Op where
  | register (caller : AccountId) (block_timestamp : Timestamp) (referrer : Option AccountId)
  | update (caller : AccountId) (referrer : Option AccountId)
  | destroy (caller : AccountId)
  | update_config (caller : AccountId) (deadline : Timestamp)
  deriving DecidableEq

/-- The state after one message call (the state component of the message;
an error leaves the state unchanged, as every error return in the source
precedes any mutation). -/
def applyOp (s : AzEventRegistration) : Op → AzEventRegistration
  | .register c ts r => (s.register c ts r).2
  | .update c r => (s.update c r).2
  | .destroy c => (s.destroy c).2
  | .update_config c d => (s.update_config c d).2

/-- The state after a sequence of message calls. -/
def applyOps (s : AzEventRegistration) (ops : List Op) : AzEventRegistration :=
  ops.foldl applyOp s

/-- A state is reachable when some call sequence from a freshly constructed
contract produces it. -/
def Reachable (s : AzEventRegistration) : Prop :=
  ∃ creator deadline ops, s = applyOps (new creator deadline) ops

/-- The spec's no-self-referral invariant: no stored record has its own
address as referrer. -/
def noSelfReferral (s : AzEventRegistration) : Prop :=
  ∀ a r, s.registrations a = some r → r.referrer ≠ some r.address

end AzEventRegistration

open AzEventRegistration

/-- Claim C3: `register` fails with the closed error exactly when the block
timestamp is strictly past the deadline; at `block_timestamp ≤ deadline` it
never returns that error (any failure then carries a different message). -/
theorem register_closed_error_iff_past_deadline
    (s : AzEventRegistration) (caller : AccountId) (ts : Timestamp)
    (referrer : Option AccountId) :
    (s.register caller ts referrer).1 =
        .error (.UnprocessableEntity "Registration is now closed") ↔
      s.deadline < ts := by
  unfold AzEventRegistration.register
  split_ifs with h1 h2 h3 <;> simp_all

/-- Claim C5: `register` by caller `i` with referrer `some i` returns an
error in every state and at every timestamp: past the deadline it is the
closed error, otherwise the self-referral check fires. -/
theorem register_self_referral_always_fails
    (s : AzEventRegistration) (caller : AccountId) (ts : Timestamp) :
    ∃ e, (s.register caller ts (some caller)).1 = .error e := by
  by_cases h : s.deadline < ts
  · exact ⟨.UnprocessableEntity "Registration is now closed",
      by simp [AzEventRegistration.register, h]⟩
  · exact ⟨.UnprocessableEntity "Registrant and referrer must be different",
      by simp [AzEventRegistration.register, h]⟩

/-- Claim C4: the three validations of `register` run in the fixed order
deadline, self-referral, duplicate, and the returned error is that of the
first failing check: past the deadline the closed error wins regardless of
the other conditions, and within the deadline a self-referral wins over an
existing duplicate. -/
theorem register_validation_order
    (s : AzEventRegistration) (caller : AccountId) (ts : Timestamp)
    (referrer : Option AccountId) :
    (s.deadline < ts →
      (s.register caller ts referrer).1 =
        .error (.UnprocessableEntity "Registration is now closed")) ∧
    (¬ s.deadline < ts → referrer = some caller →
      (s.register caller ts referrer).1 =
        .error (.UnprocessableEntity "Registrant and referrer must be different")) ∧
    (¬ s.deadline < ts → referrer ≠ some caller →
      (s.registrations caller).isSome = true →
      (s.register caller ts referrer).1 =
        .error (.UnprocessableEntity "Registration already exists")) := by
  refine ⟨fun h1 => ?_, fun h1 h2 => ?_, fun h1 h2 h3 => ?_⟩ <;>
    simp [AzEventRegistration.register, h1]
  · simp [h2]
  · simp [h2, h3]

/-- Witness for `register_validation_order`: in a contract with deadline 10
holding a record for account 1, a self-referring duplicate `register` at
time 11 gets the closed error, the same call at time 5 gets the
self-referral error, and a plain duplicate at time 5 gets the duplicate
error. -/
theorem register_validation_order_witness :
    ((new 0 10).deadline < 11 ∧
      ((new 0 10).register 1 11 (some 1)).1 =
        .error (.UnprocessableEntity "Registration is now closed")) ∧
    ((((new 0 10).register 1 0 none).2.register 1 5 (some 1)).1 =
        .error (.UnprocessableEntity "Registrant and referrer must be different")) ∧
    ((((new 0 10).register 1 0 none).2.register 1 5 none).1 =
        .error (.UnprocessableEntity "Registration already exists")) := by
  refine ⟨⟨by decide, (register_validation_order (new 0 10) 1 11 (some 1)).1 (by decide)⟩,
    (register_validation_order ((new 0 10).register 1 0 none).2 1 5 (some 1)).2.1
      (by decide) rfl,
    (register_validation_order ((new 0 10).register 1 0 none).2 1 5 none).2.2
      (by decide) (by decide) (by decide)⟩

/-- Claim C6: `update` fails with `NotFound("Registration")` exactly when no
record for the caller exists; when a record exists it returns the record
with only the referrer replaced, stores it under the caller's key, leaves
every other key untouched, and changes neither admin nor deadline. -/
theorem update_not_found_iff_and_replaces_referrer
    (s : AzEventRegistration) (caller : AccountId) (referrer : Option AccountId) :
    ((s.update caller referrer).1 = .error (.NotFound "Registration") ↔
      s.registrations caller = none) ∧
    (∀ reg, s.registrations caller = some reg →
      (s.update caller referrer).1 = .ok { address := reg.address, referrer := referrer } ∧
      (s.update caller referrer).2.registrations caller =
        some { address := reg.address, referrer := referrer } ∧
      (∀ a, a ≠ caller →
        (s.update caller referrer).2.registrations a = s.registrations a) ∧
      (s.update caller referrer).2.admin = s.admin ∧
      (s.update caller referrer).2.deadline = s.deadline) := by
  cases hc : s.registrations caller with
  | none => simp [AzEventRegistration.update, AzEventRegistration.showRegistration, hc]
  | some reg =>
      refine ⟨by simp [AzEventRegistration.update, AzEventRegistration.showRegistration, hc],
        fun reg' hreg' => ?_⟩
      injection hreg' with hreg'
      subst hreg'
      refine ⟨?_, ?_, fun a ha => ?_, ?_, ?_⟩
      · simp [AzEventRegistration.update, AzEventRegistration.showRegistration, hc]
      · simp [AzEventRegistration.update, AzEventRegistration.showRegistration, hc]
      · simp [AzEventRegistration.update, AzEventRegistration.showRegistration, hc, ha]
      · simp [AzEventRegistration.update, AzEventRegistration.showRegistration, hc]
      · simp [AzEventRegistration.update, AzEventRegistration.showRegistration, hc]

/-- Witness for `update_not_found_iff_and_replaces_referrer`: with account 1
registered with no referrer, `update(some 2)` by 1 returns the record with
referrer 2 and stores it. -/
theorem update_replaces_referrer_witness :
    ((new 0 10).register 1 0 none).2.registrations 1 = some ⟨1, none⟩ ∧
    ((((new 0 10).register 1 0 none).2.update 1 (some 2)).1 = .ok ⟨1, some 2⟩ ∧
      (((new 0 10).register 1 0 none).2.update 1 (some 2)).2.registrations 1 =
        some ⟨1, some 2⟩) := by
  have h :=
    (update_not_found_iff_and_replaces_referrer ((new 0 10).register 1 0 none).2 1
        (some 2)).2 ⟨1, none⟩ rfl
  exact ⟨rfl, h.1, h.2.1⟩

/-- Claim C7: once `destroy` succeeds, `show` on the caller and a repeated
`destroy` both fail with `NotFound("Registration")`; and `destroy` of an
absent registration is an error leaving the state untouched, not a no-op. -/
theorem destroy_removes_and_not_idempotent
    (s : AzEventRegistration) (caller : AccountId) :
    ((s.destroy caller).1 = .ok () →
      (s.destroy caller).2.showRegistration caller = .error (.NotFound "Registration") ∧
      ((s.destroy caller).2.destroy caller).1 = .error (.NotFound "Registration")) ∧
    (s.registrations caller = none →
      (s.destroy caller).1 = .error (.NotFound "Registration") ∧
      (s.destroy caller).2 = s) := by
  cases hc : s.registrations caller with
  | none =>
      refine ⟨fun hok => ?_, fun _ => ?_⟩
      · simp [AzEventRegistration.destroy, AzEventRegistration.showRegistration, hc] at hok
      · simp [AzEventRegistration.destroy, AzEventRegistration.showRegistration, hc]
  | some reg =>
      refine ⟨fun _ => ⟨?_, ?_⟩, fun hnone => ?_⟩
      · simp [AzEventRegistration.destroy, AzEventRegistration.showRegistration, hc]
      · simp [AzEventRegistration.destroy, AzEventRegistration.showRegistration, hc]
      · simp [hc] at hnone

/-- Witness for `destroy_removes_and_not_idempotent`: destroying account
1's registration makes `show` and a second `destroy` fail with `NotFound`,
and `destroy` on a fresh contract errors with the state unchanged. -/
theorem destroy_removes_witness :
    ((((new 0 10).register 1 0 none).2.destroy 1).2.showRegistration 1 =
        .error (.NotFound "Registration") ∧
      ((((new 0 10).register 1 0 none).2.destroy 1).2.destroy 1).1 =
        .error (.NotFound "Registration")) ∧
    (((new 0 10).destroy 1).1 = .error (.NotFound "Registration") ∧
      ((new 0 10).destroy 1).2 = new 0 10) := by
  exact ⟨(destroy_removes_and_not_idempotent ((new 0 10).register 1 0 none).2 1).1 rfl,
    (destroy_removes_and_not_idempotent (new 0 10) 1).2 rfl⟩

/-- Claim C8: `update_config` succeeds exactly when the caller is the admin;
any other caller gets `Unauthorised` with the whole state unchanged, and on
success the state is the old one with only the deadline replaced by the
argument, whatever its numeric value. -/
theorem update_config_authorisation
    (s : AzEventRegistration) (caller : AccountId) (d : Timestamp) :
    ((s.update_config caller d).1 = .ok () ↔ caller = s.admin) ∧
    (caller ≠ s.admin →
      (s.update_config caller d).1 = .error .Unauthorised ∧
      (s.update_config caller d).2 = s) ∧
    (caller = s.admin →
      (s.update_config caller d).2 =
        { admin := s.admin, deadline := d, registrations := s.registrations }) := by
  by_cases h : caller = s.admin
  · refine ⟨by simp [AzEventRegistration.update_config, AzEventRegistration.authorise, h],
      fun hne => absurd h hne, fun _ => ?_⟩
    simp [AzEventRegistration.update_config, AzEventRegistration.authorise, h]
  · refine ⟨by simp [AzEventRegistration.update_config, AzEventRegistration.authorise, h],
      fun _ => ?_, fun heq => absurd heq h⟩
    simp [AzEventRegistration.update_config, AzEventRegistration.authorise, h]

/-- Witness for `update_config_authorisation`: on a contract created by
account 0 with deadline 10, account 1 is refused with nothing changed,
while the admin sets the deadline to 99 (a value past, future or arbitrary
— no validation). -/
theorem update_config_authorisation_witness :
    (((new 0 10).update_config 0 99).1 = .ok ()) ∧
    ((1 : AccountId) ≠ (new 0 10).admin ∧
      ((new 0 10).update_config 1 99).1 = .error .Unauthorised ∧
      ((new 0 10).update_config 1 99).2 = new 0 10) ∧
    (((new 0 10).update_config 0 99).2 =
      { admin := 0, deadline := 99, registrations := (new 0 10).registrations }) := by
  refine ⟨(update_config_authorisation (new 0 10) 0 99).1.mpr rfl,
    ⟨by decide, (update_config_authorisation (new 0 10) 1 99).2.1 (by decide)⟩,
    (update_config_authorisation (new 0 10) 0 99).2.2 rfl⟩

/-- Claim C9: the deadline gates only `register`. Neither `update` nor
`destroy` reads the block timestamp (their embeddings take none, mirroring
the source), so on any state — in particular one whose deadline lies in the
past relative to any chosen current time — they succeed whenever the
caller's record exists, and neither can ever return the closed error. -/
theorem update_destroy_unaffected_by_deadline
    (s : AzEventRegistration) (caller : AccountId) (referrer : Option AccountId) :
    ((s.registrations caller).isSome = true →
      (s.update caller referrer).1.isOk = true ∧
      (s.destroy caller).1 = .ok ()) ∧
    (s.update caller referrer).1 ≠
      .error (.UnprocessableEntity "Registration is now closed") ∧
    (s.destroy caller).1 ≠
      .error (.UnprocessableEntity "Registration is now closed") := by
  cases hc : s.registrations caller with
  | none =>
      refine ⟨fun hsome => by simp at hsome, ?_, ?_⟩ <;>
        simp [AzEventRegistration.update, AzEventRegistration.destroy,
          AzEventRegistration.showRegistration, hc]
  | some reg =>
      refine ⟨fun _ => ⟨?_, ?_⟩, ?_, ?_⟩ <;>
        simp [AzEventRegistration.update, AzEventRegistration.destroy,
          AzEventRegistration.showRegistration, hc, Except.isOk, Except.toBool]

/-- Witness for `update_destroy_unaffected_by_deadline`: account 1
registers at time 0 under deadline 10; on the resulting state (whose
deadline is long past by, say, time 1000000) `update` and `destroy` by 1
still succeed. -/
theorem update_destroy_unaffected_witness :
    ((((new 0 10).register 1 0 none).2.registrations 1).isSome = true ∧
      (((new 0 10).register 1 0 none).2.update 1 (some 2)).1.isOk = true ∧
      (((new 0 10).register 1 0 none).2.destroy 1).1 = .ok ()) := by
  have h :=
    (update_destroy_unaffected_by_deadline ((new 0 10).register 1 0 none).2 1
        (some 2)).1 rfl
  exact ⟨rfl, h.1, h.2⟩

/-- Every single message call leaves the `admin` field as it was: `register`,
`update` and `destroy` never write it, and `update_config` writes only the
deadline. -/
lemma applyOp_admin (s : AzEventRegistration) (op : Op) :
    (applyOp s op).admin = s.admin := by
  cases op with
  | register c ts r =>
      show ((s.register c ts r).2).admin = s.admin
      unfold AzEventRegistration.register
      split_ifs <;> rfl
  | update c r =>
      show ((s.update c r).2).admin = s.admin
      cases hc : s.registrations c <;>
        simp [AzEventRegistration.update, AzEventRegistration.showRegistration, hc]
  | destroy c =>
      show ((s.destroy c).2).admin = s.admin
      cases hc : s.registrations c <;>
        simp [AzEventRegistration.destroy, AzEventRegistration.showRegistration, hc]
  | update_config c d =>
      show ((s.update_config c d).2).admin = s.admin
      by_cases hc : c = s.admin <;>
        simp [AzEventRegistration.update_config, AzEventRegistration.authorise, hc]

/-- Along any call sequence the `admin` field is untouched. -/
lemma applyOps_admin (s : AzEventRegistration) (ops : List Op) :
    (applyOps s ops).admin = s.admin := by
  induction ops generalizing s with
  | nil => rfl
  | cons op rest ih => exact (ih (applyOp s op)).trans (applyOp_admin s op)

/-- Claim C10: after construction the admin is constant. The constructor
sets `admin` to the creator, and no sequence of the mutating messages
(`register`, `update`, `destroy`, `update_config` — the complete mutating
surface, as `config` and `show` take `&self`) ever changes it; there is no
admin-transfer operation. -/
theorem admin_never_changes (creator : AccountId) (d : Timestamp) (ops : List Op) :
    (applyOps (new creator d) ops).admin = creator :=
  applyOps_admin (new creator d) ops

/-- Claim C1 counterexample: the no-self-referral invariant does NOT hold in
every reachable state, because `update` performs no self-referral check.
From a fresh contract (creator 0, deadline 10), account 1 registers with no
referrer, then calls `update(some 1)`: the resulting reachable state stores
`{ address := 1, referrer := some 1 }`, a self-referral. -/
theorem update_allows_self_referral_in_reachable_state :
    Reachable (applyOps (new 0 10) [Op.register 1 0 none, Op.update 1 (some 1)]) ∧
    (applyOps (new 0 10) [Op.register 1 0 none, Op.update 1 (some 1)]).registrations 1 =
      some { address := 1, referrer := some 1 } ∧
    ¬ noSelfReferral (applyOps (new 0 10) [Op.register 1 0 none, Op.update 1 (some 1)]) := by
  refine ⟨⟨0, 10, [Op.register 1 0 none, Op.update 1 (some 1)], rfl⟩, rfl, fun h => ?_⟩
  exact h 1 { address := 1, referrer := some 1 } rfl rfl

/-- Claim C1 as amended: `register`, `destroy` and `update_config` preserve
the no-self-referral invariant (for `register` the self-referral check also
establishes it for the inserted record); `update` is excluded, as the
counterexample shows it can store a self-referral. -/
theorem register_destroy_update_config_preserve_no_self_referral
    (s : AzEventRegistration) (h : noSelfReferral s) (c : AccountId)
    (ts : Timestamp) (r : Option AccountId) (d : Timestamp) :
    noSelfReferral (s.register c ts r).2 ∧
    noSelfReferral (s.destroy c).2 ∧
    noSelfReferral (s.update_config c d).2 := by
  refine ⟨?_, ?_, ?_⟩
  · unfold AzEventRegistration.register
    split_ifs with h1 h2 h3
    · exact h
    · exact h
    · exact h
    · intro a r' hr'
      dsimp only at hr'
      by_cases ha : a = c
      · rw [if_pos ha] at hr'
        injection hr' with hr'
        subst hr'
        simpa using fun hrc => h2 hrc
      · rw [if_neg ha] at hr'
        exact h a r' hr'
  · cases hc : s.registrations c with
    | none =>
        intro a r' hr'
        simp only [AzEventRegistration.destroy, AzEventRegistration.showRegistration,
          hc] at hr'
        exact h a r' hr'
    | some reg =>
        intro a r' hr'
        simp only [AzEventRegistration.destroy, AzEventRegistration.showRegistration,
          hc] at hr'
        by_cases ha : a = c
        · rw [if_pos ha] at hr'
          exact absurd hr' (by simp)
        · rw [if_neg ha] at hr'
          exact h a r' hr'
  · by_cases hc : c = s.admin
    · intro a r' hr'
      simp [AzEventRegistration.update_config, AzEventRegistration.authorise, hc] at hr'
      exact h a r' hr'
    · intro a r' hr'
      simp [AzEventRegistration.update_config, AzEventRegistration.authorise, hc] at hr'
      exact h a r' hr'

/-- Witness for `register_destroy_update_config_preserve_no_self_referral`:
on a fresh contract, which trivially satisfies the invariant, all three
operations keep it. -/
theorem preserve_no_self_referral_witness :
    noSelfReferral (new 0 10) ∧
    (noSelfReferral ((new 0 10).register 1 0 (some 2)).2 ∧
      noSelfReferral ((new 0 10).destroy 1).2 ∧
      noSelfReferral ((new 0 10).update_config 0 5).2) := by
  have hinv : noSelfReferral (new 0 10) := by
    intro a r hr
    simp [AzEventRegistration.new] at hr
  exact ⟨hinv,
    register_destroy_update_config_preserve_no_self_referral (new 0 10) hinv 1 0 (some 2) 5⟩

/-- A successful `register` leaves a record under the caller's key. -/
lemma register_ok_registrations_isSome
    (s : AzEventRegistration) (c : AccountId) (ts : Timestamp) (r : Option AccountId)
    (h : (s.register c ts r).1.isOk = true) :
    ((s.register c ts r).2.registrations c).isSome = true := by
  unfold AzEventRegistration.register at *
  split_ifs at * with h1 h2 h3
  · simp [Except.isOk, Except.toBool] at h
  · simp [Except.isOk, Except.toBool] at h
  · simp [Except.isOk, Except.toBool] at h
  · simp

/-- No message other than `destroy` by `i` itself removes `i`'s record:
`register` only errors or inserts elsewhere, `update` keeps a record under
the same key, `destroy` by another caller removes another key, and
`update_config` never touches the mapping. -/
lemma applyOp_preserves_registration
    (s : AzEventRegistration) (i : AccountId) (op : Op) (hop : op ≠ Op.destroy i)
    (h : (s.registrations i).isSome = true) :
    ((applyOp s op).registrations i).isSome = true := by
  cases op with
  | register c ts r =>
      show ((s.register c ts r).2.registrations i).isSome = true
      unfold AzEventRegistration.register
      split_ifs with h1 h2 h3
      · exact h
      · exact h
      · exact h
      · by_cases hic : i = c <;> simp [hic, h]
  | update c r =>
      show ((s.update c r).2.registrations i).isSome = true
      cases hc : s.registrations c with
      | none =>
          simpa [AzEventRegistration.update, AzEventRegistration.showRegistration, hc]
            using h
      | some reg =>
          by_cases hic : i = c <;>
            simp [AzEventRegistration.update, AzEventRegistration.showRegistration,
              hc, hic, h]
  | destroy c =>
      have hic : i ≠ c := fun hh => hop (by simp [hh])
      show ((s.destroy c).2.registrations i).isSome = true
      cases hc : s.registrations c with
      | none =>
          simpa [AzEventRegistration.destroy, AzEventRegistration.showRegistration, hc]
            using h
      | some reg =>
          simp [AzEventRegistration.destroy, AzEventRegistration.showRegistration,
            hc, hic, h]
  | update_config c d =>
      show ((s.update_config c d).2.registrations i).isSome = true
      by_cases hc : c = s.admin <;>
        simp [AzEventRegistration.update_config, AzEventRegistration.authorise, hc, h]

/-- A registered identity stays registered along any call sequence that
contains no `destroy` by that identity. -/
lemma applyOps_preserves_registration
    (s : AzEventRegistration) (i : AccountId) (ops : List Op)
    (hops : Op.destroy i ∉ ops) (h : (s.registrations i).isSome = true) :
    ((applyOps s ops).registrations i).isSome = true := by
  induction ops generalizing s with
  | nil => exact h
  | cons op rest ih =>
      rw [List.mem_cons, not_or] at hops
      exact ih (applyOp s op) hops.2
        (applyOp_preserves_registration s i op (fun hh => hops.1 hh.symm) h)

/-- Claim C2 counterexample: with deadline 10, account 1 registers
successfully at time 0; its second `register` at time 11 does fail, but
with the closed error, not the duplicate error — so the second call does
not fail with the duplicate error "for all timestamps". -/
theorem second_register_fails_closed_not_duplicate :
    ((new 0 10).register 1 0 none).1.isOk = true ∧
    (((new 0 10).register 1 0 none).2.register 1 11 none).1 =
      .error (.UnprocessableEntity "Registration is now closed") ∧
    (((new 0 10).register 1 0 none).2.register 1 11 none).1 ≠
      .error (.UnprocessableEntity "Registration already exists") := by
  have h2 : (((new 0 10).register 1 0 none).2.register 1 11 none).1 =
      .error (.UnprocessableEntity "Registration is now closed") := rfl
  refine ⟨rfl, h2, ?_⟩
  rw [h2]
  simp

/-- Claim C2 as amended: after a successful `register` by `i`, any second
`register` by `i` before a `destroy` by `i` fails at every timestamp, and
it fails with the duplicate error exactly in the cases the earlier checks
let through: second-call timestamp within the (current) deadline and a
referrer argument other than `some i`. -/
theorem register_duplicate_gate
    (s : AzEventRegistration) (i : AccountId) (ts : Timestamp) (r : Option AccountId)
    (ops : List Op) (ts2 : Timestamp) (r2 : Option AccountId)
    (hreg : (s.register i ts r).1.isOk = true)
    (hops : Op.destroy i ∉ ops) :
    (((applyOps (s.register i ts r).2 ops).register i ts2 r2).1.isOk = false) ∧
    (ts2 ≤ (applyOps (s.register i ts r).2 ops).deadline → r2 ≠ some i →
      ((applyOps (s.register i ts r).2 ops).register i ts2 r2).1 =
        .error (.UnprocessableEntity "Registration already exists")) := by
  have hsome := applyOps_preserves_registration (s.register i ts r).2 i ops hops
    (register_ok_registrations_isSome s i ts r hreg)
  set s' := applyOps (s.register i ts r).2 ops with hs'
  constructor
  · show (s'.register i ts2 r2).1.isOk = false
    unfold AzEventRegistration.register
    by_cases h1 : ts2 > s'.deadline
    · rw [if_pos h1]
      rfl
    · rw [if_neg h1]
      by_cases h2 : r2 = some i
      · rw [if_pos h2]
        rfl
      · rw [if_neg h2, if_pos hsome]
        rfl
  · intro hle hr2
    show (s'.register i ts2 r2).1 = _
    unfold AzEventRegistration.register
    rw [if_neg (not_lt.mpr hle), if_neg hr2, if_pos hsome]

/-- Witness for `register_duplicate_gate`: account 1 registers at time 0
under deadline 10; after an `update` by 1 and a `register` by 2 (no
`destroy` by 1), a second `register` by 1 at time 5 with referrer 2 fails
with the duplicate error. -/
theorem register_duplicate_gate_witness :
    ((new 0 10).register 1 0 none).1.isOk = true ∧
    Op.destroy 1 ∉ [Op.update 1 (some 2), Op.register 2 3 none] ∧
    (((applyOps ((new 0 10).register 1 0 none).2
        [Op.update 1 (some 2), Op.register 2 3 none]).register 1 5 (some 2)).1.isOk
      = false) ∧
    ((applyOps ((new 0 10).register 1 0 none).2
        [Op.update 1 (some 2), Op.register 2 3 none]).register 1 5 (some 2)).1 =
      .error (.UnprocessableEntity "Registration already exists") := by
  have h := register_duplicate_gate (new 0 10) 1 0 none
      [Op.update 1 (some 2), Op.register 2 3 none] 5 (some 2) rfl (by decide)
  exact ⟨rfl, by decide, h.1, h.2 (by decide) (by decide)⟩
